import Mathlib

/-!
Shallow embedding of the deployment orchestration and readiness-polling engine
of `src/lib/deploy.js` (serverless-kubeless).

The engine is callback driven.  We embed it as follows:

* The readiness poller `waitForDeployment` becomes a per-tick transition
  function `waitForDeploymentTick` on an explicit `PollState`, plus a driver
  `waitForDeploymentRun` that folds a list of tick observations and stops at
  the first terminal tick.  A tick observation is what the single
  `core.pods.get` callback of that interval iteration delivers.
* Promise settlement is explicit: a tick can resolve, reject, throw, or do
  nothing; clearing the interval without settling leaves the poll promise
  pending forever, which the driver reports as `terminatedUnsettled`.
* The submitters `deployFunctionAndWait` / `redeployFunctionAndWait` become
  functions of the submission error (if any) and of how the poller promise
  settled.  The source chains the poller with `.then(() => resolve(true))`
  and registers no rejection handler, so a rejected or unsettled poller
  leaves the outer operation promise pending; the embedding returns
  `OpOutcome.pending` in exactly those cases.
* The batch orchestrator `deploy` is embedded through the pieces the claims
  exercise: the per-pair classification of an incoming manifest against the
  existing functions, the ingress decision made in the completion
  continuation, the number of scheduled pairs, and the completion-counter
  check `counter === _.keys(functions).length`.

Timestamps are milliseconds as `Nat`.  Strings whose only consulted property
is emptiness (lodash `_.isEmpty`) are embedded as `String`, with `""` for an
absent value.
-/

/-- First container status of a pod.  The source consults only index 0 of
`pod.status.containerStatuses`; `state` stands for the JSON-stringified
`state` object used in the verbose status snapshot. -/
structure ContainerStatus where
  ready : Bool
  restartCount : Nat
  state : String
deriving DecidableEq, Repr

/-- A pod as observed by the poller: the `function` label, the creation
timestamp in milliseconds, and the first container status when the
`containerStatuses` field is present. -/
structure Pod where
  functionLabel : String
  creationTimestamp : Nat
  containerStatuses : Option ContainerStatus
deriving DecidableEq, Repr

/-- Mutable state of one `waitForDeployment` invocation: `retries`,
`successfulCount`, and `previousPodStatus` (the last verbose snapshot;
`none` models the initial empty-string value). -/
structure PollState where
  retries : Nat
  successfulCount : Nat
  previousPodStatus : Option (List String)
deriving DecidableEq, Repr

/-- State at the start of a `waitForDeployment` invocation. -/
def initialPollState : PollState :=
  { retries := 0, successfulCount := 0, previousPodStatus := none }

/-- What the `core.pods.get` callback of one interval iteration delivers:
a transport error whose message matches `request timed out`, some other
transport error, or the pod list. -/
inductive TickObs where
  | errTimeout
  | errOther (message : String)
  | pods (items : List Pod)
deriving DecidableEq, Repr

/-- How a tick settles the poll promise, when it does. -/
inductive Settlement where
  | resolveOk
  | rejectTimeout
  | throwErr (message : String)
deriving DecidableEq, Repr

/-- Effect of one interval iteration: the settlement it performs (if any),
whether it called `clearInterval`, and the poll state afterwards. -/
structure TickEffect where
  settle : Option Settlement
  cleared : Bool
  state : PollState
deriving DecidableEq, Repr

/-- The pod filter of `waitForDeployment`: the `function` label equals the
function name and the creation timestamp is `>=` the request moment. -/
def matchesFunction (funcName : String) (requestMoment : Nat) (pod : Pod) : Bool :=
  pod.functionLabel == funcName && decide (requestMoment ≤ pod.creationTimestamp)

/-- A pod counted into `runningPods`: first container status present and
`ready` true. -/
def isReadyPod (pod : Pod) : Bool :=
  match pod.containerStatuses with
  | some c => c.ready
  | none => false

/-- A pod triggering the crash-loop branch: first container status present,
not ready, and `restartCount > 2`. -/
def isCrashLooping (pod : Pod) : Bool :=
  match pod.containerStatuses with
  | some c => !c.ready && decide (c.restartCount > 2)
  | none => false

/-- Entry of the verbose status snapshot for one pod: the stringified first
container state, or `unknown` when `containerStatuses` is absent. -/
def podStateSnapshot (pod : Pod) : String :=
  match pod.containerStatuses with
  | some c => c.state
  | none => "unknown"

/-- The verbose branch stores the current snapshot only when it differs from
the previous one; either way the stored value afterwards is the current
snapshot. -/
def updateSnapshot (previous : Option (List String)) (current : List String) :
    Option (List String) :=
  if previous = some current then previous else some current

/-- One interval iteration of `waitForDeployment`.  The give-up check
`retries > 3` runs at the head of the tick, before the pod query; the source
does not return after rejecting there, but the extra pod query of that tick
can no longer settle the already-settled promise, so it is elided.  In the
crash-loop branch the source calls `clearInterval` inside the pod loop and
then still runs the trailing branches of the same tick; their local-state
writes are kept, and a crash-looping pod can never make
`runningPods === functionPods.length` true because it is not ready. -/
def waitForDeploymentTick (funcName : String) (requestMoment : Nat) (verbose : Bool)
    (s : PollState) (obs : TickObs) : TickEffect :=
  if s.retries > 3 then
    { settle := some .rejectTimeout, cleared := true, state := s }
  else
    match obs with
    | .errTimeout => { settle := none, cleared := false, state := s }
    | .errOther m => { settle := some (.throwErr m), cleared := false, state := s }
    | .pods items =>
      let functionPods := items.filter (matchesFunction funcName requestMoment)
      if functionPods.isEmpty then
        { settle := none, cleared := false, state := { s with retries := s.retries + 1 } }
      else
        let runningPods := (functionPods.filter isReadyPod).length
        let crashLoopDetected := functionPods.any isCrashLooping
        if runningPods = functionPods.length then
          if s.successfulCount + 1 = 2 then
            { settle := some .resolveOk, cleared := true,
              state := { s with successfulCount := s.successfulCount + 1 } }
          else
            { settle := none, cleared := crashLoopDetected,
              state := { s with successfulCount := s.successfulCount + 1 } }
        else if verbose then
          { settle := none, cleared := crashLoopDetected,
            state := { s with
                       successfulCount := 0,
                       previousPodStatus :=
                         updateSnapshot s.previousPodStatus
                           (functionPods.map podStateSnapshot) } }
        else
          { settle := none, cleared := crashLoopDetected, state := s }

/-- Outcome of driving the poller over a sequence of tick observations.
`stillPolling` means the observations ran out with the interval still armed;
`terminatedUnsettled` means the interval was cleared without settling the
promise, which therefore stays pending forever. -/
inductive RunOutcome where
  | stillPolling (s : PollState)
  | resolved
  | rejectedTimeout
  | terminatedUnsettled
  | thrown (message : String)
deriving DecidableEq, Repr

/-- Drive `waitForDeploymentTick` over a list of observations, stopping at
the first settlement or interval clearing; later observations are then never
consumed (no further ticks). -/
def waitForDeploymentRun (funcName : String) (requestMoment : Nat) (verbose : Bool) :
    PollState → List TickObs → RunOutcome
  | s, [] => .stillPolling s
  | s, obs :: rest =>
    let e := waitForDeploymentTick funcName requestMoment verbose s obs
    match e.settle with
    | some .resolveOk => .resolved
    | some .rejectTimeout => .rejectedTimeout
    | some (.throwErr m) => .thrown m
    | none =>
      if e.cleared then .terminatedUnsettled
      else waitForDeploymentRun funcName requestMoment verbose e.state rest

/-- The reference timestamp taken by both submitters:
`moment().milliseconds(0)`, the submission time with its milliseconds
component zeroed. -/
def requestMomentOf (submissionMs : Nat) : Nat :=
  submissionMs - submissionMs % 1000

/-- Error delivered by a backend submission callback. -/
structure ApiErr where
  code : Nat
  message : String
deriving DecidableEq, Repr

/-- How the poller promise of one submission ended up: resolved, rejected
with a reason, or never settled (interval cleared without settling, as in
the crash-loop branch). -/
inductive PollSettle where
  | resolvedOk
  | rejectedMsg (reason : String)
  | unsettled
deriving DecidableEq, Repr

/-- Settlement of one deployment-operation promise as observed by the batch
orchestrator. -/
inductive OpOutcome where
  | resolvedB (deployed : Bool)
  | rejected (message : String)
  | pending
deriving DecidableEq, Repr

/-- Rejection message of `deployFunctionAndWait` for a non-conflict error. -/
def deployErrorMessage (name : String) (e : ApiErr) : String :=
  "Unable to deploy the function " ++ name ++ ". Received:\n  Code: " ++
    toString e.code ++ "\n  Message: " ++ e.message

/-- Rejection message of `redeployFunctionAndWait`. -/
def redeployErrorMessage (name : String) (e : ApiErr) : String :=
  "Unable to update the function " ++ name ++ ". Received:\n  Code: " ++
    toString e.code ++ "\n  Message: " ++ e.message

/-- `deployFunctionAndWait`: POST the manifest; a 409 conflict logs a
force-redeploy hint and resolves `false` without starting the poller; any
other error rejects.  On success the poller runs and is chained with
`.then(() => resolve(true))` and no rejection handler, so only a resolved
poller settles the operation; a rejected or unsettled poller leaves it
pending.  The second component records whether the poller was invoked. -/
def deployFunctionAndWait (name : String) (postErr : Option ApiErr)
    (poll : PollSettle) : OpOutcome × Bool :=
  match postErr with
  | some e =>
    if e.code = 409 then (.resolvedB false, false)
    else (.rejected (deployErrorMessage name e), false)
  | none =>
    (match poll with
     | .resolvedOk => .resolvedB true
     | _ => .pending, true)

/-- `redeployFunctionAndWait`: PUT the manifest by name; any error rejects;
on success the poller runs, chained exactly as in `deployFunctionAndWait`. -/
def redeployFunctionAndWait (name : String) (putErr : Option ApiErr)
    (poll : PollSettle) : OpOutcome × Bool :=
  match putErr with
  | some e => (.rejected (redeployErrorMessage name e), false)
  | none =>
    (match poll with
     | .resolvedOk => .resolvedB true
     | _ => .pending, true)

/-- The orchestrator attaches `.catch(err => errors.push(err))` to the
operation promise: an error is recorded exactly when the operation promise
rejects. -/
def recordsError (o : OpOutcome) : Bool :=
  match o with
  | .rejected _ => true
  | _ => false

/-- Fields of the ingress document built by `getIngressDescription` that the
claims exercise (metadata name and label, the single rule, and its backend). -/
structure IngressManifest where
  name : String
  functionLabel : String
  host : String
  path : String
  serviceName : String
  servicePort : Nat
deriving DecidableEq, Repr

/-- `getIngressDescription`: the declarative ingress document for one
function. -/
def getIngressDescription (funcName funcPath funcHost : String) : IngressManifest :=
  { name := "ingress-" ++ funcName
  , functionLabel := funcName
  , host := funcHost
  , path := funcPath
  , serviceName := funcName
  , servicePort := 8080 }

/-- The check `_.startsWith(fpath, "/")`: whether the first character of the
string is a slash. -/
def startsWithSlash (s : String) : Bool :=
  match s.data with
  | [] => false
  | c :: _ => c == '/'

/-- `addIngressRuleIfNecessary`: returns the submitted ingress document, or
`none` when the guard skips the submission.  `clusterHostname` stands for the
hostname parsed out of the cluster API URL by the excluded configuration
collaborator; `""` models an absent path or hostname. -/
def addIngressRuleIfNecessary (funcName eventType eventPath eventHostname
    clusterHostname : String) : Option IngressManifest :=
  let fpath := if eventPath = "" then "/" else eventPath
  let hostname := if eventHostname = "" then clusterHostname ++ ".nip.io" else eventHostname
  if eventType = "http" ∧ ((eventPath ≠ "" ∧ eventPath ≠ "/") ∨ eventHostname ≠ "") then
    let absolutePath := if startsWithSlash fpath then fpath else "/" ++ fpath
    some (getIngressDescription funcName absolutePath hostname)
  else
    none

/-- The spec part of a function manifest, as deep-compared by the
orchestrator against existing functions.  The optional `template` attached
for environment or memory settings is not consulted by any claim and would
only enlarge the equality; `""` models an absent topic. -/
structure FuncSpec where
  deps : String
  function : String
  handler : String
  runtime : String
  type : String
  topic : String
deriving DecidableEq, Repr

/-- How the orchestrator treats one incoming manifest. -/
inductive Classification where
  | unchanged
  | forceRedeploy
  | create
deriving DecidableEq, Repr

/-- The existing-function scan of `deploy`: any item with the same name sets
`existingFunction`; any item with the same name and deep-equal spec sets
`existingSameFunction`.  Same spec skips; same name plus `force` redeploys;
otherwise a create is attempted. -/
def classify (items : List (String × FuncSpec)) (name : String) (spec : FuncSpec)
    (force : Bool) : Classification :=
  let existingFunction := items.any (fun it => it.1 == name)
  let existingSameFunction := items.any (fun it => it.1 == name && decide (it.2 = spec))
  if existingSameFunction then .unchanged
  else if existingFunction && force then .forceRedeploy
  else .create

/-- Backend behaviour for one function×event pair: the POST error (if a
create is attempted), the PUT error (if a redeploy is attempted), and how the
poller promise settles when it runs. -/
structure Backend where
  postErr : Option ApiErr
  putErr : Option ApiErr
  poll : PollSettle
deriving DecidableEq, Repr

/-- The deployment promise and the `redeployed` flag produced for one pair:
an unchanged spec resolves `false` immediately; a force redeploy runs
`redeployFunctionAndWait` with `redeployed = true`; otherwise
`deployFunctionAndWait` runs. -/
def runPair (name : String) (b : Backend) : Classification → OpOutcome × Bool
  | .unchanged => (.resolvedB false, false)
  | .forceRedeploy => ((redeployFunctionAndWait name b.putErr b.poll).1, true)
  | .create => ((deployFunctionAndWait name b.postErr b.poll).1, false)

/-- The ingress decision of the completion continuation
`.catch(err => errors.push(err)).then(deployed => ...)`: a rejected
operation reaches the continuation with `deployed = undefined` (so no
ingress), a pending operation never reaches it, and a resolved one
provisions ingress iff `deployed` is true and `redeployed` is false. -/
def pairIngressInvoked (redeployed : Bool) : OpOutcome → Bool
  | .resolvedB deployed => !(!deployed || redeployed)
  | .rejected _ => false
  | .pending => false

/-- Whether the Ingress Provisioner is invoked for one function×event pair,
composing classification, submission, and the completion continuation. -/
def ingressForPair (items : List (String × FuncSpec)) (name : String)
    (spec : FuncSpec) (force : Bool) (b : Backend) : Bool :=
  let pr := runPair name b (classify items name spec force)
  pairIngressInvoked pr.2 pr.1

/-- One event of a function descriptor; `""` models absent fields. -/
structure EventSpec where
  type : String
  path : String
  hostname : String
  trigger : String
deriving DecidableEq, Repr

/-- A function descriptor as consumed by `deploy`.  Fields the claims never
consult (deps, text, labels, environment, memorySize, namespace,
description) are elided. -/
structure FunctionDescriptor where
  id : String
  handler : Option String
  events : List EventSpec
deriving DecidableEq, Repr

/-- The event list actually iterated for a descriptor: `deploy` substitutes
one default http event on path `/` when the list is empty. -/
def effectiveEvents (d : FunctionDescriptor) : List EventSpec :=
  if d.events.isEmpty then [{ type := "http", path := "/", hostname := "", trigger := "" }]
  else d.events

/-- Number of function×event operations actually scheduled by `deploy`:
descriptors without a handler are skipped entirely; each remaining
descriptor contributes one operation per effective event. -/
def deployScheduledOperations (functions : List FunctionDescriptor) : Nat :=
  List.foldl
    (fun acc d => if d.handler.isSome then acc + (effectiveEvents d).length else acc)
    0 functions

/-- The total against which the completion counter is compared:
`_.keys(functions).length`, the number of descriptors. -/
def deployCompletionTarget (functions : List FunctionDescriptor) : Nat :=
  functions.length

/-- The settlement check of the completion continuation: the batch settles
exactly when the shared counter (completed pairs so far) equals the number
of descriptors. -/
def deploySettlesAtCounter (functions : List FunctionDescriptor) (counter : Nat) : Bool :=
  counter == deployCompletionTarget functions

/-- The settlement of `deploy` once the counter check fires: resolve when
the shared error list is empty, otherwise reject with one aggregate error
joining every collected message. -/
def deploySettleOutcome (errors : List String) : Except String Unit :=
  if errors.isEmpty then .ok ()
  else .error ("Found errors while deploying the given functions:\n" ++
    String.intercalate "\n" errors)

/-! ### Concrete inputs used by witnesses and counterexamples -/

/-- A matching pod whose first container is ready. -/
def readyPodA : Pod :=
  { functionLabel := "f", creationTimestamp := 5,
    containerStatuses := some { ready := true, restartCount := 0, state := "running" } }

/-- A matching pod in a crash loop: not ready, `restartCount = 3`. -/
def crashPod : Pod :=
  { functionLabel := "f", creationTimestamp := 5,
    containerStatuses := some { ready := false, restartCount := 3, state := "waiting" } }

/-- A matching pod whose status carries no `containerStatuses` field. -/
def noStatusPod : Pod :=
  { functionLabel := "f", creationTimestamp := 0, containerStatuses := none }

/-- A tick observing one matching, fully ready pod. -/
def readyObs : TickObs :=
  .pods [{ functionLabel := "f", creationTimestamp := 0,
           containerStatuses := some { ready := true, restartCount := 0, state := "running" } }]

/-- A tick observing one matching pod that is not ready (restart count 0). -/
def notReadyObs : TickObs :=
  .pods [{ functionLabel := "f", creationTimestamp := 0,
           containerStatuses := some { ready := false, restartCount := 0, state := "waiting" } }]

/-- A tick observing no pods at all. -/
def emptyObs : TickObs := .pods []

/-- One descriptor with a handler and two http events: two scheduled
operations but a completion target of one. -/
def c1Batch : List FunctionDescriptor :=
  [{ id := "myFunction", handler := some "handler.hello",
     events := [{ type := "http", path := "/a", hostname := "", trigger := "" },
                { type := "http", path := "/b", hostname := "", trigger := "" }] }]

/-- A sample manifest spec for ingress-decision witnesses. -/
def sampleSpec : FuncSpec :=
  { deps := "", function := "def hello(): pass", handler := "handler.hello",
    runtime := "python2.7", type := "HTTP", topic := "" }

/-! ### Claims -/

/-- C1: the batch is claimed to resolve success exactly once all scheduled
function×event operations have completed.  The code increments the shared
counter once per completed pair but compares it against the number of
function descriptors: with one descriptor carrying two http events, two
operations are scheduled, yet the settlement check already fires at counter
value 1 (and would no longer fire at 2), so the batch resolves success while
the second operation is still outstanding. -/
theorem c1_batch_counter_mismatch :
    deployScheduledOperations c1Batch = 2 ∧
    deploySettlesAtCounter c1Batch 1 = true ∧
    deploySettlesAtCounter c1Batch 2 = false ∧
    deploySettleOutcome [] = Except.ok () := by
  refine ⟨rfl, rfl, rfl, rfl⟩

/-- C3: the stability counter is claimed to reset on every not-fully-ready
tick regardless of the verbose option.  With verbose off the reset sits in
dead code: a ready tick, a not-ready tick, and a ready tick resolve the poll
(the counter survives the middle tick), while the same ticks with verbose on
leave the poll unresolved with the counter freshly rebuilt to 1. -/
theorem c3_reset_depends_on_verbose :
    waitForDeploymentRun "f" 0 false initialPollState [readyObs, notReadyObs, readyObs] =
      .resolved ∧
    waitForDeploymentRun "f" 0 true initialPollState [readyObs, notReadyObs, readyObs] =
      .stillPolling { retries := 0, successfulCount := 1,
                      previousPodStatus := some ["waiting"] } := by
  refine ⟨rfl, rfl⟩

/-- C2 counterexample: a tick observing a ready pod next to a crash-looping
pod clears the interval but issues no settlement at all, so the poll does
not fail with a crash-loop error as claimed; the run terminates with the
promise unsettled. -/
theorem c2_counterexample :
    (waitForDeploymentTick "f" 0 false initialPollState (.pods [readyPodA, crashPod])).settle
      = none ∧
    (waitForDeploymentTick "f" 0 false initialPollState (.pods [readyPodA, crashPod])).cleared
      = true ∧
    waitForDeploymentRun "f" 0 false initialPollState [.pods [readyPodA, crashPod]] =
      .terminatedUnsettled := by
  refine ⟨rfl, rfl, rfl⟩

/-- C4 counterexample: after exactly 4 consecutive ticks with zero matching
pods the poll has not failed; it is still polling with `retries = 4`, so the
claimed failure after 4 such ticks does not hold. -/
theorem c4_counterexample :
    waitForDeploymentRun "f" 0 false initialPollState
      [emptyObs, emptyObs, emptyObs, emptyObs] =
      .stillPolling { retries := 4, successfulCount := 0, previousPodStatus := none } ∧
    waitForDeploymentRun "f" 0 false initialPollState
      [emptyObs, emptyObs, emptyObs, emptyObs] ≠ .rejectedTimeout := by
  refine ⟨rfl, by decide⟩

/-- C5 counterexample: with a successful submission and a poller that fails,
both operations stay pending instead of failing, and no error is recorded:
the poller failure does not propagate as the failure of the operation. -/
theorem c5_counterexample :
    (deployFunctionAndWait "myFunction" none
      (.rejectedMsg "Unable to retrieve the status of the myFunction deployment")).1 =
      OpOutcome.pending ∧
    (redeployFunctionAndWait "myFunction" none
      (.rejectedMsg "Unable to retrieve the status of the myFunction deployment")).1 =
      OpOutcome.pending ∧
    recordsError (deployFunctionAndWait "myFunction" none
      (.rejectedMsg "Unable to retrieve the status of the myFunction deployment")).1 =
      false := by
  refine ⟨rfl, rfl, rfl⟩

/-- C5 amended: for both submitters a successful submission invokes the
poller; a resolved poller resolves the operation as deployed; but a rejected
or never-settled poller leaves the operation promise pending (the `.then`
chain registers no rejection handler), rather than failing the operation. -/
theorem c5_poller_result_handling (name : String) (reason : String) :
    deployFunctionAndWait name none .resolvedOk = (OpOutcome.resolvedB true, true) ∧
    deployFunctionAndWait name none (.rejectedMsg reason) = (OpOutcome.pending, true) ∧
    deployFunctionAndWait name none .unsettled = (OpOutcome.pending, true) ∧
    redeployFunctionAndWait name none .resolvedOk = (OpOutcome.resolvedB true, true) ∧
    redeployFunctionAndWait name none (.rejectedMsg reason) = (OpOutcome.pending, true) ∧
    redeployFunctionAndWait name none .unsettled = (OpOutcome.pending, true) := by
  refine ⟨rfl, rfl, rfl, rfl, rfl, rfl⟩

/-- C6: a 409 conflict on create resolves the operation as not deployed,
records no error, and never invokes the poller; any other submission error
rejects the operation (also without invoking the poller). -/
theorem c6_conflict_not_error (name : String) (e : ApiErr) (poll : PollSettle) :
    (e.code = 409 →
      deployFunctionAndWait name (some e) poll = (OpOutcome.resolvedB false, false) ∧
      recordsError (deployFunctionAndWait name (some e) poll).1 = false) ∧
    (e.code ≠ 409 →
      (deployFunctionAndWait name (some e) poll).1 =
        OpOutcome.rejected (deployErrorMessage name e) ∧
      (deployFunctionAndWait name (some e) poll).2 = false) := by
  constructor
  · intro h
    simp [deployFunctionAndWait, h, recordsError]
  · intro h
    simp [deployFunctionAndWait, h]

/-- C6 witness: the conflict case at code 409 and the generic failure case
at code 500, evaluated at concrete inputs. -/
theorem c6_witness :
    deployFunctionAndWait "myFunction" (some { code := 409, message := "conflict" })
      PollSettle.unsettled = (OpOutcome.resolvedB false, false) ∧
    (deployFunctionAndWait "myFunction" (some { code := 500, message := "boom" })
      PollSettle.unsettled).1 =
      OpOutcome.rejected (deployErrorMessage "myFunction" { code := 500, message := "boom" }) :=
  ⟨((c6_conflict_not_error "myFunction" { code := 409, message := "conflict" }
      PollSettle.unsettled).1 rfl).1,
   ((c6_conflict_not_error "myFunction" { code := 500, message := "boom" }
      PollSettle.unsettled).2 (by decide)).1⟩

/-- C9: both submitters take the request moment as the submission time with
the milliseconds component zeroed, so the creation-timestamp filter of the
poller also admits a pod created strictly before the submission instant but
within the same whole second. -/
theorem c9_truncated_request_moment (funcName : String) (t : Nat) (pod : Pod)
    (hlabel : pod.functionLabel = funcName)
    (hbefore : pod.creationTimestamp < t)
    (hsec : pod.creationTimestamp / 1000 = t / 1000) :
    requestMomentOf t ≤ pod.creationTimestamp ∧
    matchesFunction funcName (requestMomentOf t) pod = true := by
  have hle : requestMomentOf t ≤ pod.creationTimestamp := by
    unfold requestMomentOf
    omega
  refine ⟨hle, ?_⟩
  simp [matchesFunction, hlabel, hle]

/-- C9 witness: submission at 1500 ms truncates to 1000 ms, so a pod created
at 1200 ms (strictly before submission, same whole second) passes the
filter. -/
theorem c9_witness :
    requestMomentOf 1500 ≤ 1200 ∧
    matchesFunction "f" (requestMomentOf 1500)
      { functionLabel := "f", creationTimestamp := 1200, containerStatuses := none } = true :=
  c9_truncated_request_moment "f" 1500
    { functionLabel := "f", creationTimestamp := 1200, containerStatuses := none }
    rfl (by decide) (by decide)

/-! ### Helper lemmas -/

/-- A crash-looping pod is not counted into `runningPods`. -/
theorem isCrashLooping_not_ready (p : Pod) (h : isCrashLooping p = true) :
    isReadyPod p = false := by
  unfold isCrashLooping at h
  unfold isReadyPod
  cases hc : p.containerStatuses with
  | none => rfl
  | some c =>
    rw [hc] at h
    simp only [Bool.and_eq_true, Bool.not_eq_true', decide_eq_true_eq] at h
    exact h.1

/-- If some element of `l` fails `q`, the filter by `q` is strictly shorter
than `l`. -/
theorem length_filter_lt_of_exists_not {α : Type} (q : α → Bool) (l : List α) (a : α)
    (ha : a ∈ l) (hqa : q a = false) : (l.filter q).length < l.length := by
  induction l with
  | nil => cases ha
  | cons x xs ih =>
    rcases List.mem_cons.mp ha with rfl | hmem
    · rw [List.filter_cons_of_neg (by simp [hqa])]
      exact Nat.lt_succ_of_le (List.length_filter_le q xs)
    · cases hx : q x with
      | true =>
        rw [List.filter_cons_of_pos (by simp [hx])]
        simpa using Nat.succ_lt_succ (ih hmem)
      | false =>
        rw [List.filter_cons_of_neg (by simp [hx])]
        exact Nat.lt_succ_of_lt (ih hmem)

/-- After the verbose branch the stored snapshot is always the current one. -/
theorem updateSnapshot_eq (previous : Option (List String)) (current : List String) :
    updateSnapshot previous current = some current := by
  unfold updateSnapshot
  split
  · assumption
  · rfl

/-- A non-nil list is not `isEmpty`. -/
theorem isEmpty_false_of_ne_nil {α : Type} (l : List α) (h : l ≠ []) :
    l.isEmpty = false := by
  cases hemp : l.isEmpty
  · rfl
  · exact absurd (List.isEmpty_iff.mp hemp) h

/-- C2 amended: whenever the filtered pod set contains a crash-looping pod
(first container not ready, `restartCount > 2`), the tick clears the
interval in that very tick, regardless of how many other pods are ready and
of the verbose option, but settles nothing: the poll run terminates with the
promise unsettled (the source logs an error and sets the process exit code
instead of rejecting), and no further tick is consumed. -/
theorem c2_crash_loop_terminates_unsettled (funcName : String) (requestMoment : Nat)
    (verbose : Bool) (s : PollState) (items : List Pod)
    (hretries : s.retries ≤ 3)
    (hcrash : (items.filter (matchesFunction funcName requestMoment)).any isCrashLooping
      = true) :
    (waitForDeploymentTick funcName requestMoment verbose s (.pods items)).settle = none ∧
    (waitForDeploymentTick funcName requestMoment verbose s (.pods items)).cleared = true ∧
    ∀ rest, waitForDeploymentRun funcName requestMoment verbose s (.pods items :: rest) =
      .terminatedUnsettled := by
  obtain ⟨p, hp, hcp⟩ := List.any_eq_true.mp hcrash
  have hready : isReadyPod p = false := isCrashLooping_not_ready p hcp
  have hlt : ((items.filter (matchesFunction funcName requestMoment)).filter isReadyPod).length
      < (items.filter (matchesFunction funcName requestMoment)).length :=
    length_filter_lt_of_exists_not isReadyPod _ p hp hready
  have hne : (items.filter (matchesFunction funcName requestMoment)).isEmpty = false := by
    refine isEmpty_false_of_ne_nil _ ?_
    intro h
    rw [h] at hp
    cases hp
  have h3 : ¬ (s.retries > 3) := by omega
  have key : (waitForDeploymentTick funcName requestMoment verbose s (.pods items)).settle
        = none ∧
      (waitForDeploymentTick funcName requestMoment verbose s (.pods items)).cleared = true := by
    unfold waitForDeploymentTick
    rw [if_neg h3]
    dsimp only
    rw [if_neg (by simp [hne]), if_neg (Nat.ne_of_lt hlt)]
    cases verbose
    · simp [hcrash]
    · simp [hcrash]
  refine ⟨key.1, key.2, ?_⟩
  intro rest
  simp [waitForDeploymentRun, key.1, key.2]

/-- C2 witness: a single tick observing one crash-looping pod clears the
interval, settles nothing, and terminates the run unsettled. -/
theorem c2_witness :
    (waitForDeploymentTick "f" 0 false initialPollState (.pods [crashPod])).settle = none ∧
    (waitForDeploymentTick "f" 0 false initialPollState (.pods [crashPod])).cleared = true ∧
    waitForDeploymentRun "f" 0 false initialPollState [.pods [crashPod]] =
      .terminatedUnsettled := by
  have h := c2_crash_loop_terminates_unsettled "f" 0 false initialPollState [crashPod]
    (by decide) (by decide)
  exact ⟨h.1, h.2.1, h.2.2 []⟩

/-- C4 amended: the retries counter increments exactly on ticks whose
filtered pod set is empty — a non-empty tick and a transport-timeout tick
leave it unchanged.  The give-up check runs at the head of each tick, before
the pod query: after 4 consecutive empty ticks the poll is still polling
with `retries = 4`, and it is the next (5th) tick that rejects with the
deployment-timeout error, whatever that tick observes; no tick after it is
consumed. -/
theorem c4_retries_and_timeout (funcName : String) (requestMoment : Nat)
    (verbose : Bool) :
    (∀ s items, s.retries ≤ 3 →
      items.filter (matchesFunction funcName requestMoment) = [] →
      waitForDeploymentTick funcName requestMoment verbose s (.pods items) =
        { settle := none, cleared := false,
          state := { s with retries := s.retries + 1 } }) ∧
    (∀ s items, s.retries ≤ 3 →
      items.filter (matchesFunction funcName requestMoment) ≠ [] →
      ((waitForDeploymentTick funcName requestMoment verbose s (.pods items)).state).retries
        = s.retries) ∧
    (∀ s, s.retries ≤ 3 →
      waitForDeploymentTick funcName requestMoment verbose s .errTimeout =
        { settle := none, cleared := false, state := s }) ∧
    (∀ obs rest, waitForDeploymentRun funcName requestMoment verbose initialPollState
        (emptyObs :: emptyObs :: emptyObs :: emptyObs :: obs :: rest) =
        .rejectedTimeout) := by
  refine ⟨?_, ?_, ?_, ?_⟩
  · intro s items h3 hfil
    unfold waitForDeploymentTick
    rw [if_neg (by omega)]
    dsimp only
    rw [hfil]
    rfl
  · intro s items h3 hfil
    have hne : (items.filter (matchesFunction funcName requestMoment)).isEmpty = false :=
      isEmpty_false_of_ne_nil _ hfil
    unfold waitForDeploymentTick
    rw [if_neg (by omega)]
    dsimp only
    rw [if_neg (by simp [hne])]
    split
    · split <;> rfl
    · split <;> rfl
  · intro s h3
    unfold waitForDeploymentTick
    rw [if_neg (by omega)]
  · intro obs rest
    simp [waitForDeploymentRun, waitForDeploymentTick, emptyObs, initialPollState]

/-- C4 witness: an empty tick increments retries from 0 to 1, and a run of
five empty ticks (four increments, then the head check of the fifth tick)
rejects with the timeout error. -/
theorem c4_witness :
    waitForDeploymentTick "f" 0 false initialPollState (.pods []) =
      { settle := none, cleared := false,
        state := { retries := 1, successfulCount := 0, previousPodStatus := none } } ∧
    waitForDeploymentRun "f" 0 false initialPollState
      [emptyObs, emptyObs, emptyObs, emptyObs, emptyObs] = .rejectedTimeout := by
  refine ⟨?_, ?_⟩
  · exact (c4_retries_and_timeout "f" 0 false).1 initialPollState [] (by decide) rfl
  · exact (c4_retries_and_timeout "f" 0 false).2.2.2 emptyObs []

/-- C10 amended: a pod whose status lacks `containerStatuses` is counted
neither as ready nor as crash-looping; on a tick whose filtered set is
non-empty and consists only of such pods, the poller neither settles nor
clears the interval nor touches retries.  With verbose off the state is
fully unchanged; with verbose on the stability counter is also reset to 0
and the snapshot becomes the `unknown` entries — so the state is not
unchanged in general, contrary to the claim as stated. -/
theorem c10_no_container_statuses (funcName : String) (requestMoment : Nat)
    (s : PollState) (items : List Pod)
    (h3 : s.retries ≤ 3)
    (hne : items.filter (matchesFunction funcName requestMoment) ≠ [])
    (hnone : ∀ p ∈ items.filter (matchesFunction funcName requestMoment),
      p.containerStatuses = none) :
    (∀ p ∈ items.filter (matchesFunction funcName requestMoment),
      isReadyPod p = false ∧ isCrashLooping p = false) ∧
    waitForDeploymentTick funcName requestMoment false s (.pods items) =
      { settle := none, cleared := false, state := s } ∧
    waitForDeploymentTick funcName requestMoment true s (.pods items) =
      { settle := none, cleared := false,
        state := { s with
                   successfulCount := 0,
                   previousPodStatus := some
                     ((items.filter (matchesFunction funcName requestMoment)).map
                       podStateSnapshot) } } := by
  have hcounts : ∀ p ∈ items.filter (matchesFunction funcName requestMoment),
      isReadyPod p = false ∧ isCrashLooping p = false := by
    intro p hp
    unfold isReadyPod isCrashLooping
    rw [hnone p hp]
    exact ⟨rfl, rfl⟩
  have hreadynil : (items.filter (matchesFunction funcName requestMoment)).filter isReadyPod
      = [] :=
    List.filter_eq_nil_iff.mpr (fun p hp => by simp [(hcounts p hp).1])
  have hcrashfalse : (items.filter (matchesFunction funcName requestMoment)).any isCrashLooping
      = false :=
    List.any_eq_false.mpr (fun p hp => by simp [(hcounts p hp).2])
  have hemp : (items.filter (matchesFunction funcName requestMoment)).isEmpty = false :=
    isEmpty_false_of_ne_nil _ hne
  have hlen : ((items.filter (matchesFunction funcName requestMoment)).filter isReadyPod).length
      ≠ (items.filter (matchesFunction funcName requestMoment)).length := by
    rw [hreadynil]
    intro h
    exact hne (List.length_eq_zero.mp h.symm)
  refine ⟨hcounts, ?_, ?_⟩
  · unfold waitForDeploymentTick
    rw [if_neg (by omega)]
    dsimp only
    rw [if_neg (by simp [hemp]), if_neg hlen]
    simp [hcrashfalse]
  · unfold waitForDeploymentTick
    rw [if_neg (by omega)]
    dsimp only
    rw [if_neg (by simp [hemp]), if_neg hlen]
    simp [hcrashfalse, updateSnapshot_eq]

/-- C10 witness: a tick whose only matching pod lacks container statuses,
evaluated from a state with one accumulated ready tick: with verbose off the
state is untouched, with verbose on the counter resets and the snapshot
becomes `unknown`. -/
theorem c10_witness :
    waitForDeploymentTick "f" 0 false
      { retries := 0, successfulCount := 1, previousPodStatus := none }
      (.pods [noStatusPod]) =
      { settle := none, cleared := false,
        state := { retries := 0, successfulCount := 1, previousPodStatus := none } } ∧
    waitForDeploymentTick "f" 0 true
      { retries := 0, successfulCount := 1, previousPodStatus := none }
      (.pods [noStatusPod]) =
      { settle := none, cleared := false,
        state := { retries := 0, successfulCount := 0,
                   previousPodStatus := some ["unknown"] } } := by
  have h := c10_no_container_statuses "f" 0
    { retries := 0, successfulCount := 1, previousPodStatus := none } [noStatusPod]
    (by decide) (by decide) (by decide)
  exact ⟨h.2.1, h.2.2⟩

/-- C10 counterexample: the claim says the poll state is unchanged except
the optional verbose log snapshot, but with verbose on the tick also resets
`successfulCount` from 1 to 0. -/
theorem c10_counterexample :
    ((waitForDeploymentTick "f" 0 true
        { retries := 0, successfulCount := 1, previousPodStatus := none }
        (.pods [noStatusPod])).state).successfulCount = 0 ∧
    ((waitForDeploymentTick "f" 0 true
        { retries := 0, successfulCount := 1, previousPodStatus := none }
        (.pods [noStatusPod])).state).successfulCount ≠ 1 := by
  refine ⟨rfl, by decide⟩

/-- C7: for one function×event pair the Ingress Provisioner is invoked (at
the single decision point of the completion continuation) exactly when the
pair was classified as a create, the POST succeeded, and the poller
resolved — a fresh successful creation.  It is never invoked after an
unchanged-spec skip, after a 409 conflict resolution, after any rejected or
pending operation, or after a force redeploy even when that redeploy
succeeds. -/
theorem c7_ingress_only_fresh_create (items : List (String × FuncSpec)) (name : String)
    (spec : FuncSpec) (force : Bool) (b : Backend) :
    ingressForPair items name spec force b = true ↔
      (classify items name spec force = .create ∧ b.postErr = none ∧
        b.poll = .resolvedOk) := by
  unfold ingressForPair
  cases hcls : classify items name spec force with
  | unchanged => simp [runPair, pairIngressInvoked]
  | forceRedeploy =>
    cases hput : b.putErr with
    | none =>
      cases hpoll : b.poll <;>
        simp [runPair, redeployFunctionAndWait, pairIngressInvoked, hput, hpoll]
    | some e =>
      simp [runPair, redeployFunctionAndWait, pairIngressInvoked, hput]
  | create =>
    cases hpost : b.postErr with
    | none =>
      cases hpoll : b.poll <;>
        simp [runPair, deployFunctionAndWait, pairIngressInvoked, hpost, hpoll]
    | some e =>
      by_cases h409 : e.code = 409 <;>
        simp [runPair, deployFunctionAndWait, pairIngressInvoked, hpost, h409]

/-- C7 witness: a fresh creation against an empty existing list, with a
successful POST and a resolved poller, does invoke the Ingress Provisioner. -/
theorem c7_witness :
    ingressForPair [] "myFunction" sampleSpec false
      { postErr := none, putErr := none, poll := .resolvedOk } = true :=
  (c7_ingress_only_fresh_create [] "myFunction" sampleSpec false
    { postErr := none, putErr := none, poll := .resolvedOk }).mpr ⟨rfl, rfl, rfl⟩

/-- The path normalization of the Ingress Provisioner (defaulting an empty
path to `/`, then prefixing with `/` when missing) agrees with prefixing the
raw event path with `/` when it does not already start with `/`. -/
theorem absolutePath_norm (eventPath : String) :
    (if startsWithSlash (if eventPath = "" then "/" else eventPath)
      then (if eventPath = "" then "/" else eventPath)
      else "/" ++ (if eventPath = "" then "/" else eventPath)) =
    (if startsWithSlash eventPath then eventPath else "/" ++ eventPath) := by
  by_cases hp : eventPath = ""
  · subst hp
    decide
  · rw [if_neg hp]

/-- C8: the Ingress Provisioner submits nothing when the event type is not
`http`, or when the path is empty or `/` while no hostname is given;
otherwise it submits exactly one ingress document whose path is the given
path prefixed with `/` when it does not already start with `/` (an empty
path with a hostname yields `/`). -/
theorem c8_ingress_rule (funcName eventType eventPath eventHostname
    clusterHost : String) :
    ((eventType ≠ "http" ∨ ((eventPath = "" ∨ eventPath = "/") ∧ eventHostname = "")) →
      addIngressRuleIfNecessary funcName eventType eventPath eventHostname clusterHost
        = none) ∧
    ((eventType = "http" ∧ ((eventPath ≠ "" ∧ eventPath ≠ "/") ∨ eventHostname ≠ "")) →
      addIngressRuleIfNecessary funcName eventType eventPath eventHostname clusterHost
        = some (getIngressDescription funcName
            (if startsWithSlash eventPath then eventPath else "/" ++ eventPath)
            (if eventHostname = "" then clusterHost ++ ".nip.io" else eventHostname))) := by
  constructor
  · intro h
    unfold addIngressRuleIfNecessary
    rw [if_neg]
    dsimp only
    tauto
  · intro h
    unfold addIngressRuleIfNecessary
    rw [if_pos h]
    dsimp only
    rw [absolutePath_norm]

/-- C8 witness: `http` event on relative path `foo` with no hostname submits
one document with absolute path `/foo` and the derived wildcard hostname;
the `trigger` type and the default `/` path submit nothing. -/
theorem c8_witness :
    addIngressRuleIfNecessary "myFunction" "http" "foo" "" "1.2.3.4" =
      some (getIngressDescription "myFunction" "/foo" "1.2.3.4.nip.io") ∧
    addIngressRuleIfNecessary "myFunction" "http" "/" "" "1.2.3.4" = none ∧
    addIngressRuleIfNecessary "myFunction" "trigger" "/foo" "host" "1.2.3.4" = none := by
  refine ⟨?_, ?_, ?_⟩
  · have h := (c8_ingress_rule "myFunction" "http" "foo" "" "1.2.3.4").2
      ⟨rfl, Or.inl ⟨by decide, by decide⟩⟩
    simpa [startsWithSlash] using h
  · exact (c8_ingress_rule "myFunction" "http" "/" "" "1.2.3.4").1
      (Or.inr ⟨Or.inr rfl, rfl⟩)
  · exact (c8_ingress_rule "myFunction" "trigger" "/foo" "host" "1.2.3.4").1
      (Or.inl (by decide))
